import Mathlib

/-!
Verification development for the e-LACAK Pringsewu housing-registry backend.

This file gives a shallow embedding of the handlers in
`server/src/handlers/housing_records.ts`, `server/src/handlers/backlogs.ts`
(shipped unnamed), `server/src/handlers/audit.ts` and
`server/src/handlers/gis.ts`, over the data model of `server/src/db/schema.ts`
and the zod input schemas of `server/src/schema.ts`.

Modelling conventions:
* The Postgres store is a `Db` structure of lists; a handler is a function
  `input → … → Db → Except String (result × Db)`; a thrown JS error is
  `Except.error` with the source's message, and an error performs no write
  (the JS handlers throw before any insert/update in every modelled path).
* JS timestamps (`new Date()`) become an explicit `now : Nat` parameter; all
  `new Date()` calls inside one handler body happen within the same
  millisecond-free abstraction and receive the same `now`.
* A zod field that is `.optional()` is `Option τ`; one that is
  `.nullable().optional()` is `Option (Option τ)` (`none` = absent/undefined,
  `some none` = explicit null, `some (some v)` = value `v`).
* `numeric` columns (latitude, longitude, monthly_income) are stored as
  decimal strings in Postgres and converted with `toString`/`parseFloat` at
  the boundary; the round trip is the identity for the values the handlers
  pass through, so they are modelled as `Option Int` values directly.
* `serial` primary keys are modelled by `nextHousingId` / `nextBacklogId`
  counters in `Db`.
-/

namespace ELacak

inductive HousingStatus
  | RTLH
  | RLH
deriving DecidableEq, Repr

inductive EligibilityCategory
  | POOR
  | VERY_POOR
  | MODERATE
  | NOT_ELIGIBLE
deriving DecidableEq, Repr

inductive VerificationStatus
  | PENDING
  | VERIFIED
  | REJECTED
deriving DecidableEq, Repr

inductive BacklogType
  | NO_HOUSE
  | UNINHABITABLE_HOUSE
deriving DecidableEq, Repr

inductive AuditAction
  | CREATE
  | UPDATE
  | DELETE
  | VERIFY
  | LOGIN
  | EXPORT
deriving DecidableEq, Repr

/-- Row of `districtsTable` (db/schema.ts). -/
structure District where
  id : Nat
  name : String
  code : String
  created_at : Nat
  updated_at : Nat
deriving DecidableEq, Repr

/-- Row of `villagesTable` (db/schema.ts). -/
structure Village where
  id : Nat
  name : String
  code : String
  district_id : Nat
  created_at : Nat
  updated_at : Nat
deriving DecidableEq, Repr

/-- Row of `housingRecordsTable` (db/schema.ts). -/
structure HousingRecord where
  id : Nat
  head_of_household : String
  nik : String
  housing_status : HousingStatus
  eligibility_category : EligibilityCategory
  verification_status : VerificationStatus
  district_id : Nat
  village_id : Nat
  latitude : Option Int
  longitude : Option Int
  address : String
  phone : Option String
  family_members : Nat
  monthly_income : Option Int
  house_condition_score : Option Int
  notes : Option String
  verified_by : Option Nat
  verified_at : Option Nat
  created_by : Nat
  created_at : Nat
  updated_at : Nat
deriving DecidableEq, Repr

/-- Row of `backlogsTable` (db/schema.ts). `year`/`month` are plain JS
numbers in the range queries, so they are modelled as `Int`. -/
structure Backlog where
  id : Nat
  district_id : Nat
  village_id : Nat
  backlog_type : BacklogType
  family_count : Nat
  year : Int
  month : Int
  created_by : Nat
  created_at : Nat
  updated_at : Nat
deriving DecidableEq, Repr

/-- Row of `auditLogsTable` (db/schema.ts). `created_at` is `Int` so the
7-day / 1-day window cutoffs of `getSecurityReport` can be arbitrary. -/
structure AuditLog where
  id : Nat
  user_id : Nat
  action : AuditAction
  resource_type : String
  resource_id : Option Nat
  details : Option String
  ip_address : Option String
  created_at : Int
deriving DecidableEq, Repr

/-- The backing store: one list per table touched by the modelled handlers. -/
structure Db where
  districts : List District
  villages : List Village
  housingRecords : List HousingRecord
  backlogs : List Backlog
  auditLogs : List AuditLog
  nextHousingId : Nat
  nextBacklogId : Nat
deriving DecidableEq, Repr

/-- Input of `createHousingRecord` after zod validation
(`createHousingRecordInputSchema`, schema.ts). -/
structure CreateHousingRecordInput where
  head_of_household : String
  nik : String
  housing_status : HousingStatus
  eligibility_category : EligibilityCategory
  district_id : Nat
  village_id : Nat
  latitude : Option (Option Int)
  longitude : Option (Option Int)
  address : String
  phone : Option (Option String)
  family_members : Nat
  monthly_income : Option (Option Int)
  house_condition_score : Option (Option Int)
  notes : Option (Option String)
deriving DecidableEq, Repr

/-- Input of `updateHousingRecord` (`updateHousingRecordInputSchema`). -/
structure UpdateHousingRecordInput where
  id : Nat
  head_of_household : Option String
  housing_status : Option HousingStatus
  eligibility_category : Option EligibilityCategory
  district_id : Option Nat
  village_id : Option Nat
  latitude : Option (Option Int)
  longitude : Option (Option Int)
  address : Option String
  phone : Option (Option String)
  family_members : Option Nat
  monthly_income : Option (Option Int)
  house_condition_score : Option (Option Int)
  notes : Option (Option String)
deriving DecidableEq, Repr

/-- Input of `verifyHousingRecord` (`verifyHousingRecordInputSchema`). -/
structure VerifyHousingRecordInput where
  id : Nat
  verification_status : VerificationStatus
  notes : Option (Option String)
deriving DecidableEq, Repr

/-- Input of `createBacklog` (`createBacklogInputSchema`). -/
structure CreateBacklogInput where
  district_id : Nat
  village_id : Nat
  backlog_type : BacklogType
  family_count : Nat
  year : Int
  month : Int
deriving DecidableEq, Repr

/-- The `districtExists` query of `createHousingRecord` (housing_records.ts
lines 61-64) and of `createBacklog`. -/
def districtExists (db : Db) (districtId : Nat) : Bool :=
  db.districts.any (fun d => d.id == districtId)

/-- The compound village-belongs-to-district query (housing_records.ts
lines 71-77, backlogs handler lines 45-51). -/
def villageInDistrict (db : Db) (villageId districtId : Nat) : Bool :=
  db.villages.any (fun v => v.id == villageId && v.district_id == districtId)

/-- Bare village-existence query (housing_records.ts lines 163-166,
the update branch that received only `village_id`). -/
def villageExists (db : Db) (villageId : Nat) : Bool :=
  db.villages.any (fun v => v.id == villageId)

/-- The NIK-uniqueness pre-check of `createHousingRecord` (lines 84-87). -/
def nikExists (db : Db) (nik : String) : Bool :=
  db.housingRecords.any (fun r => r.nik == nik)

/-- JS `x || null` on a nullable-optional string field: undefined, null and
the empty string (all falsy) coerce to null. Used by `createHousingRecord`
for `phone` and `notes` (lines 105, 109). -/
def jsOrNullString : Option (Option String) → Option String
  | some (some s) => if s = "" then none else some s
  | _ => none

/-- JS `x || null` on a nullable-optional numeric field: undefined, null and
0 (all falsy) coerce to null. Used by `createHousingRecord` for
`house_condition_score` (line 108). -/
def jsOrNullScore : Option (Option Int) → Option Int
  | some (some n) => if n = 0 then none else some n
  | _ => none

/-- JS `x?.toString()` in an insert values object: `undefined` and `null`
both become `undefined`, which drizzle's insert turns into the column
default (NULL for these nullable columns); a number is stored as its decimal
string and read back by `parseFloat`, an identity round trip here. Used by
`createHousingRecord` for `latitude`, `longitude`, `monthly_income`
(lines 102-103, 107). -/
def jsDecimalInsert : Option (Option Int) → Option Int
  | some (some v) => some v
  | _ => none

/-- `createHousingRecord` (housing_records.ts lines 58-126). -/
def createHousingRecord (input : CreateHousingRecordInput) (createdBy : Nat)
    (now : Nat) (db : Db) : Except String (HousingRecord × Db) :=
  if !districtExists db input.district_id then
    .error "District not found"
  else if !villageInDistrict db input.village_id input.district_id then
    .error "Village not found or does not belong to the specified district"
  else if nikExists db input.nik then
    .error "NIK already exists"
  else
    let record : HousingRecord := {
      id := db.nextHousingId
      head_of_household := input.head_of_household
      nik := input.nik
      housing_status := input.housing_status
      eligibility_category := input.eligibility_category
      verification_status := .PENDING
      district_id := input.district_id
      village_id := input.village_id
      latitude := jsDecimalInsert input.latitude
      longitude := jsDecimalInsert input.longitude
      address := input.address
      phone := jsOrNullString input.phone
      family_members := input.family_members
      monthly_income := jsDecimalInsert input.monthly_income
      house_condition_score := jsOrNullScore input.house_condition_score
      notes := jsOrNullString input.notes
      verified_by := none
      verified_at := none
      created_by := createdBy
      created_at := now
      updated_at := now }
    .ok (record, { db with
      housingRecords := db.housingRecords ++ [record]
      nextHousingId := db.nextHousingId + 1 })

/-- JS truthiness of an optional numeric id, as used by the
`if (input.district_id && input.village_id)` chain in `updateHousingRecord`
(lines 141, 153, 162): undefined and 0 are falsy. -/
def truthyId : Option Nat → Bool
  | some n => n != 0
  | none => false

/-- The referential-validation chain of `updateHousingRecord`
(housing_records.ts lines 140-171). Note that when only one of
`district_id` / `village_id` is (truthily) supplied, only that entity's
existence is checked — the village/district pairing is not re-validated. -/
def validateUpdateRefs (input : UpdateHousingRecordInput) (db : Db) :
    Except String Unit :=
  if truthyId input.district_id && truthyId input.village_id then
    if villageInDistrict db (input.village_id.getD 0) (input.district_id.getD 0) then
      .ok ()
    else
      .error "Village not found or does not belong to the specified district"
  else if truthyId input.district_id then
    if districtExists db (input.district_id.getD 0) then .ok ()
    else .error "District not found"
  else if truthyId input.village_id then
    if villageExists db (input.village_id.getD 0) then .ok ()
    else .error "Village not found"
  else
    .ok ()

/-- The `significantFields.some(field => input[field] !== undefined)` test of
`updateHousingRecord` (lines 193-194). -/
def significantFieldIncluded (input : UpdateHousingRecordInput) : Bool :=
  input.head_of_household.isSome || input.housing_status.isSome ||
  input.eligibility_category.isSome || input.address.isSome ||
  input.family_members.isSome

/-- Update of one decimal (`numeric`) column in the `updateValues` object
(lines 183-184, 188): the handler writes `input.x?.toString()`, so an
explicit null becomes `undefined`, and drizzle's `mapUpdateSet` filters
`undefined` values out of the SET clause — the column keeps its prior value.
Only a real number actually updates the column. -/
def jsDecimalUpdate (old : Option Int) : Option (Option Int) → Option Int
  | some (some v) => some v
  | _ => old

/-- The `updateValues` construction and SET application of
`updateHousingRecord` (housing_records.ts lines 174-207) applied to one row.
Fields absent from the input (undefined) are not in `updateValues` and keep
their prior value; present nullable text/score fields are assigned directly
(so explicit null clears them); decimal fields go through `jsDecimalUpdate`;
`updated_at` is always set; the verification triple is forced back to
PENDING/null/null when a significant field is included. -/
def applyUpdateValues (r : HousingRecord) (input : UpdateHousingRecordInput)
    (now : Nat) : HousingRecord :=
  let base : HousingRecord := { r with
    head_of_household := input.head_of_household.getD r.head_of_household
    housing_status := input.housing_status.getD r.housing_status
    eligibility_category := input.eligibility_category.getD r.eligibility_category
    district_id := input.district_id.getD r.district_id
    village_id := input.village_id.getD r.village_id
    latitude := jsDecimalUpdate r.latitude input.latitude
    longitude := jsDecimalUpdate r.longitude input.longitude
    address := input.address.getD r.address
    phone := input.phone.getD r.phone
    family_members := input.family_members.getD r.family_members
    monthly_income := jsDecimalUpdate r.monthly_income input.monthly_income
    house_condition_score := input.house_condition_score.getD r.house_condition_score
    notes := input.notes.getD r.notes
    updated_at := now }
  if significantFieldIncluded input then
    { base with
      verification_status := .PENDING
      verified_by := none
      verified_at := none }
  else
    base

/-- `updateHousingRecord` (housing_records.ts lines 128-220). The
`updatedBy` argument is accepted and unused, as in the source. -/
def updateHousingRecord (input : UpdateHousingRecordInput) (updatedBy : Nat)
    (now : Nat) (db : Db) : Except String (HousingRecord × Db) :=
  match db.housingRecords.find? (fun r => r.id == input.id) with
  | none => .error "Housing record not found"
  | some r =>
    match validateUpdateRefs input db with
    | .error e => .error e
    | .ok _ =>
      .ok (applyUpdateValues r input now, { db with
        housingRecords := db.housingRecords.map
          (fun s => if s.id == input.id then applyUpdateValues s input now else s) })

/-- The `notes: input.notes || existingRecord[0].notes` expression of
`verifyHousingRecord` (line 240): undefined, null and the empty string are
falsy and keep the prior notes. -/
def verifyNotes (inputNotes : Option (Option String)) (oldNotes : Option String) :
    Option String :=
  match inputNotes with
  | some (some s) => if s = "" then oldNotes else some s
  | _ => oldNotes

/-- The SET applied by `verifyHousingRecord` to one row (lines 235-242). -/
def applyVerify (input : VerifyHousingRecordInput) (verifiedBy : Nat) (now : Nat)
    (r : HousingRecord) : HousingRecord :=
  { r with
    verification_status := input.verification_status
    verified_by := some verifiedBy
    verified_at := some now
    notes := verifyNotes input.notes r.notes
    updated_at := now }

/-- `verifyHousingRecord` (housing_records.ts lines 222-258). -/
def verifyHousingRecord (input : VerifyHousingRecordInput) (verifiedBy : Nat)
    (now : Nat) (db : Db) : Except String (HousingRecord × Db) :=
  match db.housingRecords.find? (fun r => r.id == input.id) with
  | none => .error "Housing record not found"
  | some r =>
    .ok (applyVerify input verifiedBy now r, { db with
      housingRecords := db.housingRecords.map
        (fun s => if s.id == input.id then applyVerify input verifiedBy now s else s) })

/-- `deleteHousingRecord` (housing_records.ts lines 260-282). -/
def deleteHousingRecord (id : Nat) (deletedBy : Nat) (db : Db) :
    Except String (Bool × Db) :=
  if db.housingRecords.any (fun r => r.id == id) then
    .ok (true, { db with
      housingRecords := db.housingRecords.filter (fun r => !(r.id == id)) })
  else
    .error "Housing record not found"

/-- `updateHousingCoordinates` (gis.ts lines 124-159): the only handler
outside housing_records.ts that writes `housingRecordsTable`. -/
def updateHousingCoordinates (housingRecordId : Nat) (latitude longitude : Int)
    (updatedBy : Nat) (now : Nat) (db : Db) : Except String (HousingRecord × Db) :=
  match db.housingRecords.find? (fun r => r.id == housingRecordId) with
  | none => .error "Housing record not found"
  | some r =>
    let upd := fun (s : HousingRecord) => { s with
      latitude := some latitude
      longitude := some longitude
      updated_at := now }
    .ok (upd r, { db with
      housingRecords := db.housingRecords.map
        (fun s => if s.id == housingRecordId then upd s else s) })

/-- The five-tuple uniqueness pre-check of `createBacklog`
(backlogs handler lines 58-67). -/
def backlogTupleExists (db : Db) (input : CreateBacklogInput) : Bool :=
  db.backlogs.any (fun b =>
    b.district_id == input.district_id && b.village_id == input.village_id &&
    b.backlog_type == input.backlog_type && b.year == input.year &&
    b.month == input.month)

/-- `createBacklog` (backlogs handler lines 33-91). The source interpolates
ids into the two not-found messages; the messages are modelled without the
interpolated ids. -/
def createBacklog (input : CreateBacklogInput) (createdBy : Nat) (now : Nat)
    (db : Db) : Except String (Backlog × Db) :=
  if !districtExists db input.district_id then
    .error "District does not exist"
  else if !villageInDistrict db input.village_id input.district_id then
    .error "Village does not exist in district"
  else if backlogTupleExists db input then
    .error "A backlog entry already exists for this district, village, type, year, and month combination"
  else
    let entry : Backlog := {
      id := db.nextBacklogId
      district_id := input.district_id
      village_id := input.village_id
      backlog_type := input.backlog_type
      family_count := input.family_count
      year := input.year
      month := input.month
      created_by := createdBy
      created_at := now
      updated_at := now }
    .ok (entry, { db with
      backlogs := db.backlogs ++ [entry]
      nextBacklogId := db.nextBacklogId + 1 })

/-- `getBacklogsByDateRange` (backlogs handler lines 135-180): the same-year
branch filters by month bounds inside `startYear`; the different-years branch
is the disjunction of the start-year tail, the end-year head, and the fully
enclosed years. -/
def getBacklogsByDateRange (startYear startMonth endYear endMonth : Int)
    (backlogs : List Backlog) : List Backlog :=
  if startYear == endYear then
    backlogs.filter (fun b =>
      b.year == startYear && startMonth ≤ b.month && b.month ≤ endMonth)
  else
    backlogs.filter (fun b =>
      (b.year == startYear && startMonth ≤ b.month) ||
      (b.year == endYear && b.month ≤ endMonth) ||
      (startYear + 1 ≤ b.year && b.year ≤ endYear - 1))

/-- Result of `getSecurityReport` (audit.ts line 87). -/
structure SecurityReport where
  suspicious_activities : Nat
  failed_logins : Nat
  data_exports : Nat
  recent_changes : Nat
deriving DecidableEq, Repr

/-- `getSecurityReport` (audit.ts lines 87-142). The two `new Date()`
cutoffs (7 days ago, 1 day ago) are passed in as `weekAgo` / `dayAgo`.
`Math.floor(count * 0.1)` on a Nat-valued count equals `count / 10`
(Nat division): the double product of a nonnegative integer with the
literal 0.1 always floors to the exact value of `count / 10`. -/
def getSecurityReport (logs : List AuditLog) (weekAgo dayAgo : Int) :
    SecurityReport :=
  let failedLogins :=
    (logs.filter (fun l => l.action == .LOGIN && weekAgo ≤ l.created_at)).length
  let dataExports :=
    (logs.filter (fun l => l.action == .EXPORT && weekAgo ≤ l.created_at)).length
  let recentChanges := (logs.filter (fun l => weekAgo ≤ l.created_at)).length
  let lastDay := (logs.filter (fun l => dayAgo ≤ l.created_at)).length
  { suspicious_activities := lastDay / 10
    failed_logins := failedLogins
    data_exports := dataExports
    recent_changes := recentChanges }

/-! Concrete fixtures used by witnesses and counterexamples. -/

def district1 : District :=
  { id := 1, name := "Pringsewu", code := "D01", created_at := 0, updated_at := 0 }

def district2 : District :=
  { id := 2, name := "Pagelaran", code := "D02", created_at := 0, updated_at := 0 }

def village1 : Village :=
  { id := 1, name := "Margakaya", code := "V01", district_id := 1,
    created_at := 0, updated_at := 0 }

def village2 : Village :=
  { id := 2, name := "Bumiratu", code := "V02", district_id := 2,
    created_at := 0, updated_at := 0 }

/-- A VERIFIED record living in district 1 / village 1. -/
def record1 : HousingRecord :=
  { id := 1, head_of_household := "Budi", nik := "1234567890123456",
    housing_status := .RTLH, eligibility_category := .POOR,
    verification_status := .VERIFIED, district_id := 1, village_id := 1,
    latitude := some 5, longitude := some 105, address := "Jl. Melati 1",
    phone := some "0812", family_members := 4, monthly_income := some 2500000,
    house_condition_score := some 35, notes := some "old notes",
    verified_by := some 9, verified_at := some 50, created_by := 2,
    created_at := 10, updated_at := 50 }

/-- A pre-existing audit entry, so that the audit log being left untouched is
visible as an unchanged non-empty list. -/
def seedLog : AuditLog :=
  { id := 1, user_id := 2, action := .LOGIN, resource_type := "auth",
    resource_id := none, details := none, ip_address := none, created_at := 1 }

def baseDb : Db :=
  { districts := [district1, district2], villages := [village1, village2],
    housingRecords := [record1], backlogs := [], auditLogs := [seedLog],
    nextHousingId := 2, nextBacklogId := 1 }

def emptyDb : Db :=
  { districts := [], villages := [], housingRecords := [], backlogs := [],
    auditLogs := [], nextHousingId := 1, nextBacklogId := 1 }

/-- An update input with every optional field absent. -/
def emptyUpdate (id : Nat) : UpdateHousingRecordInput :=
  { id := id, head_of_household := none, housing_status := none,
    eligibility_category := none, district_id := none, village_id := none,
    latitude := none, longitude := none, address := none, phone := none,
    family_members := none, monthly_income := none,
    house_condition_score := none, notes := none }

/-! Claim C1. -/

/-- C1: for every existing housing record and every update input, if the
input includes any of the significant fields (head_of_household,
housing_status, eligibility_category, address, family_members) then
`updateHousingRecord` sets `verification_status` to PENDING and nulls
`verified_by`/`verified_at`, regardless of the record's previous
verification state; if the input includes none of those fields the
verification triple is unchanged by the update. -/
theorem update_resets_verification_on_significant_fields
    (input : UpdateHousingRecordInput) (updatedBy now : Nat) (db : Db)
    (r' : HousingRecord) (db' : Db)
    (hok : updateHousingRecord input updatedBy now db = .ok (r', db')) :
    (significantFieldIncluded input = true →
      r'.verification_status = .PENDING ∧ r'.verified_by = none ∧
      r'.verified_at = none) ∧
    (significantFieldIncluded input = false →
      ∀ r, db.housingRecords.find? (fun s => s.id == input.id) = some r →
        r'.verification_status = r.verification_status ∧
        r'.verified_by = r.verified_by ∧ r'.verified_at = r.verified_at) := by
  unfold updateHousingRecord at hok
  cases hfind : db.housingRecords.find? (fun s => s.id == input.id) with
  | none => rw [hfind] at hok; exact absurd hok (by simp)
  | some r =>
    rw [hfind] at hok
    cases hval : validateUpdateRefs input db with
    | error e => rw [hval] at hok; exact absurd hok (by simp)
    | ok u =>
      rw [hval] at hok
      simp only [Except.ok.injEq, Prod.mk.injEq] at hok
      obtain ⟨hr', hdb'⟩ := hok
      subst hr'
      constructor
      · intro hsig
        simp [applyUpdateValues, hsig]
      · intro hsig r0 hr0
        injection hr0 with hr0
        subst hr0
        simp [applyUpdateValues, hsig]

/-- Update input touching the significant field `housing_status` only. -/
def c1input : UpdateHousingRecordInput :=
  { emptyUpdate 1 with housing_status := some .RLH }

/-- Witness for C1: updating `housing_status` on the VERIFIED `record1`
yields a PENDING record with nulled verifier data. -/
theorem update_resets_verification_witness :
    (updateHousingRecord c1input 7 100 baseDb).toOption.map
      (fun p => (p.1.verification_status, p.1.verified_by, p.1.verified_at)) =
      some (VerificationStatus.PENDING, none, none) := by
  obtain ⟨⟨r', db'⟩, h⟩ :
      ∃ p, updateHousingRecord c1input 7 100 baseDb = .ok p := ⟨_, rfl⟩
  have h2 :=
    (update_resets_verification_on_significant_fields c1input 7 100 baseDb r' db' h).1
      (by decide)
  rw [h]
  simp only [Except.toOption, Option.map_some']
  rw [h2.1, h2.2.1, h2.2.2]

/-! Claim C2. -/

/-- A fresh, fully valid create input for district 1 / village 1. -/
def c2create : CreateHousingRecordInput :=
  { head_of_household := "Siti", nik := "6543210987654321",
    housing_status := .RTLH, eligibility_category := .VERY_POOR,
    district_id := 1, village_id := 1, latitude := none, longitude := none,
    address := "Jl. Kenanga 2", phone := none, family_members := 3,
    monthly_income := none, house_condition_score := none, notes := none }

def c2update : UpdateHousingRecordInput :=
  { emptyUpdate 1 with phone := some (some "0899") }

def c2verify : VerifyHousingRecordInput :=
  { id := 1, verification_status := .VERIFIED, notes := none }

/-- C2 (code evaluated at the failing input): each of the four housing-record
mutations succeeds on `baseDb` yet leaves the audit log exactly as it was
(the single pre-existing `seedLog`); no handler, and no route in index.ts,
calls `logAuditAction` for housing-record mutations, so no CREATE / UPDATE /
VERIFY / DELETE entry is ever emitted, contradicting the claimed
"exactly one AuditLog entry after each successful mutation". -/
theorem housing_mutations_emit_no_audit_entry :
    (createHousingRecord c2create 7 100 baseDb).toOption.map
      (fun p => (p.2.housingRecords.length, p.2.auditLogs)) =
      some (2, [seedLog]) ∧
    (updateHousingRecord c2update 7 100 baseDb).toOption.map
      (fun p => p.2.auditLogs) = some [seedLog] ∧
    (verifyHousingRecord c2verify 7 100 baseDb).toOption.map
      (fun p => p.2.auditLogs) = some [seedLog] ∧
    (deleteHousingRecord 1 7 baseDb).toOption.map
      (fun p => p.2.auditLogs) = some [seedLog] := by
  refine ⟨?_, ?_, ?_, ?_⟩ <;> decide

/-! Claim C3. -/

/-- The NIKs of all stored housing records, in store order. -/
def nikList (db : Db) : List String :=
  db.housingRecords.map (fun r => r.nik)

/-- No two housing records share a `nik`. -/
def nikUnique (db : Db) : Prop :=
  (nikList db).Nodup

/-- One step of the housing-record store: any of the five handlers of the
repository that write `housingRecordsTable` (the four mutations of
housing_records.ts plus `updateHousingCoordinates` of gis.ts), or any other
operation of the repository — district, village, backlog, document, audit
and analytics handlers never touch the housing-records table, which the
`envir` constructor captures by requiring `housingRecords` unchanged. -/
inductive HousingStoreStep : Db → Db → Prop
  | create (input : CreateHousingRecordInput) (createdBy now : Nat)
      (r : HousingRecord) (db db' : Db) :
      createHousingRecord input createdBy now db = .ok (r, db') →
      HousingStoreStep db db'
  | update (input : UpdateHousingRecordInput) (updatedBy now : Nat)
      (r : HousingRecord) (db db' : Db) :
      updateHousingRecord input updatedBy now db = .ok (r, db') →
      HousingStoreStep db db'
  | verify (input : VerifyHousingRecordInput) (verifiedBy now : Nat)
      (r : HousingRecord) (db db' : Db) :
      verifyHousingRecord input verifiedBy now db = .ok (r, db') →
      HousingStoreStep db db'
  | del (id deletedBy : Nat) (b : Bool) (db db' : Db) :
      deleteHousingRecord id deletedBy db = .ok (b, db') →
      HousingStoreStep db db'
  | coords (id : Nat) (latitude longitude : Int) (updatedBy now : Nat)
      (r : HousingRecord) (db db' : Db) :
      updateHousingCoordinates id latitude longitude updatedBy now db = .ok (r, db') →
      HousingStoreStep db db'
  | envir (db db' : Db) :
      db'.housingRecords = db.housingRecords →
      HousingStoreStep db db'

/-- States reachable from `db0` by repository operations. -/
def ReachableFrom (db0 db : Db) : Prop :=
  Relation.ReflTransGen HousingStoreStep db0 db

theorem applyUpdateValues_nik (r : HousingRecord)
    (input : UpdateHousingRecordInput) (now : Nat) :
    (applyUpdateValues r input now).nik = r.nik := by
  simp only [applyUpdateValues]
  split <;> rfl

theorem applyVerify_nik (input : VerifyHousingRecordInput)
    (verifiedBy now : Nat) (r : HousingRecord) :
    (applyVerify input verifiedBy now r).nik = r.nik := rfl

/-- Mapping a nik-preserving per-row function over the store leaves the list
of NIKs unchanged. -/
theorem nikList_map (db : Db) (f : HousingRecord → HousingRecord)
    (hf : ∀ r, (f r).nik = r.nik) :
    (db.housingRecords.map f).map (fun r => r.nik) = nikList db := by
  rw [List.map_map]
  exact List.map_congr_left (fun r _ => hf r)

theorem nikUnique_create (input : CreateHousingRecordInput)
    (createdBy now : Nat) (db db' : Db) (r : HousingRecord)
    (hok : createHousingRecord input createdBy now db = .ok (r, db'))
    (hu : nikUnique db) : nikUnique db' := by
  unfold createHousingRecord at hok
  split at hok
  · exact absurd hok (by simp)
  · split at hok
    · exact absurd hok (by simp)
    · split at hok
      · exact absurd hok (by simp)
      · rename_i hnik
        simp only [Except.ok.injEq, Prod.mk.injEq] at hok
        obtain ⟨hr, hdb'⟩ := hok
        subst hdb'
        unfold nikUnique nikList at hu ⊢
        simp only [List.map_append, List.map_cons, List.map_nil]
        rw [List.nodup_append]
        refine ⟨hu, List.nodup_singleton _, ?_⟩
        intro s hs hmem
        simp only [List.mem_singleton] at hmem
        subst hmem
        simp only [List.mem_map] at hs
        obtain ⟨rec, hrec, hrnik⟩ := hs
        apply hnik
        simp only [nikExists, List.any_eq_true]
        exact ⟨rec, hrec, by simp [hrnik]⟩

theorem nikUnique_mapStep (db : Db) (f : HousingRecord → HousingRecord)
    (hf : ∀ r, (f r).nik = r.nik) (hu : nikUnique db)
    (db' : Db)
    (hdb' : db'.housingRecords = db.housingRecords.map f) :
    nikUnique db' := by
  unfold nikUnique nikList
  rw [hdb', List.map_map]
  unfold nikUnique nikList at hu
  rwa [show ((fun r : HousingRecord => r.nik) ∘ f) = (fun r => r.nik) from
    funext (fun r => hf r)]

theorem nikUnique_update (input : UpdateHousingRecordInput)
    (updatedBy now : Nat) (db db' : Db) (r : HousingRecord)
    (hok : updateHousingRecord input updatedBy now db = .ok (r, db'))
    (hu : nikUnique db) : nikUnique db' := by
  unfold updateHousingRecord at hok
  cases hfind : db.housingRecords.find? (fun s => s.id == input.id) with
  | none => rw [hfind] at hok; exact absurd hok (by simp)
  | some r0 =>
    rw [hfind] at hok
    cases hval : validateUpdateRefs input db with
    | error e => rw [hval] at hok; exact absurd hok (by simp)
    | ok u =>
      rw [hval] at hok
      simp only [Except.ok.injEq, Prod.mk.injEq] at hok
      refine nikUnique_mapStep db _ ?_ hu db' (by rw [← hok.2])
      intro s
      split
      · exact applyUpdateValues_nik _ _ _
      · rfl

theorem nikUnique_verify (input : VerifyHousingRecordInput)
    (verifiedBy now : Nat) (db db' : Db) (r : HousingRecord)
    (hok : verifyHousingRecord input verifiedBy now db = .ok (r, db'))
    (hu : nikUnique db) : nikUnique db' := by
  unfold verifyHousingRecord at hok
  cases hfind : db.housingRecords.find? (fun s => s.id == input.id) with
  | none => rw [hfind] at hok; exact absurd hok (by simp)
  | some r0 =>
    rw [hfind] at hok
    simp only [Except.ok.injEq, Prod.mk.injEq] at hok
    refine nikUnique_mapStep db _ ?_ hu db' (by rw [← hok.2])
    intro s
    split
    · rfl
    · rfl

theorem nikUnique_delete (id deletedBy : Nat) (db db' : Db) (b : Bool)
    (hok : deleteHousingRecord id deletedBy db = .ok (b, db'))
    (hu : nikUnique db) : nikUnique db' := by
  unfold deleteHousingRecord at hok
  split at hok
  · simp only [Except.ok.injEq, Prod.mk.injEq] at hok
    obtain ⟨hb, hdb'⟩ := hok
    subst hdb'
    unfold nikUnique nikList at hu ⊢
    exact hu.sublist (List.Sublist.map _ (List.filter_sublist _))
  · exact absurd hok (by simp)

theorem nikUnique_coords (id : Nat) (latitude longitude : Int)
    (updatedBy now : Nat) (db db' : Db) (r : HousingRecord)
    (hok : updateHousingCoordinates id latitude longitude updatedBy now db = .ok (r, db'))
    (hu : nikUnique db) : nikUnique db' := by
  unfold updateHousingCoordinates at hok
  cases hfind : db.housingRecords.find? (fun s => s.id == id) with
  | none => rw [hfind] at hok; exact absurd hok (by simp)
  | some r0 =>
    rw [hfind] at hok
    simp only [Except.ok.injEq, Prod.mk.injEq] at hok
    refine nikUnique_mapStep db _ ?_ hu db' (by rw [← hok.2])
    intro s
    split
    · rfl
    · rfl

theorem nikUnique_step (db db' : Db) (h : HousingStoreStep db db')
    (hu : nikUnique db) : nikUnique db' :=
  match h with
  | .create input c n r _ _ hok => nikUnique_create input c n db db' r hok hu
  | .update input u n r _ _ hok => nikUnique_update input u n db db' r hok hu
  | .verify input v n r _ _ hok => nikUnique_verify input v n db db' r hok hu
  | .del i d b _ _ hok => nikUnique_delete i d db db' b hok hu
  | .coords i la lo u n r _ _ hok => nikUnique_coords i la lo u n db db' r hok hu
  | .envir _ _ heq => by
    unfold nikUnique nikList
    rw [heq]
    exact hu

/-- C3: in every state reachable from an empty housing store, no two housing
records share a `nik`; and `createHousingRecord` with a `nik` already used
by an existing record never succeeds (and, whenever the referential checks
that precede the NIK check pass, fails with the uniqueness-conflict
message). The error path performs no write: an `Except.error` result
carries no new store. -/
theorem nik_globally_unique :
    (∀ db0 db : Db, db0.housingRecords = [] → ReachableFrom db0 db →
      nikUnique db) ∧
    (∀ (input : CreateHousingRecordInput) (createdBy now : Nat) (db : Db),
      nikExists db input.nik = true →
      (∀ p, createHousingRecord input createdBy now db ≠ .ok p) ∧
      (districtExists db input.district_id = true →
       villageInDistrict db input.village_id input.district_id = true →
       createHousingRecord input createdBy now db = .error "NIK already exists")) := by
  constructor
  · intro db0 db h0 hreach
    induction hreach with
    | refl =>
      unfold nikUnique nikList
      rw [h0]
      exact List.nodup_nil
    | tail hsteps hstep ih =>
      exact nikUnique_step _ _ hstep ih
  · intro input createdBy now db hnik
    constructor
    · intro p hok
      unfold createHousingRecord at hok
      by_cases hdt : (!districtExists db input.district_id) = true
      · rw [if_pos hdt] at hok; exact absurd hok (by simp)
      · rw [if_neg hdt] at hok
        by_cases hv : (!villageInDistrict db input.village_id input.district_id) = true
        · rw [if_pos hv] at hok; exact absurd hok (by simp)
        · rw [if_neg hv, if_pos hnik] at hok
          exact absurd hok (by simp)
    · intro hdist hvill
      unfold createHousingRecord
      rw [hdist, hvill, hnik]
      simp

/-- A create input whose NIK collides with `record1`. -/
def dupNikInput : CreateHousingRecordInput :=
  { c2create with nik := "1234567890123456" }

/-- Witness for C3: the empty store is trivially reachable and NIK-unique,
and creating `dupNikInput` on `baseDb` (which already holds that NIK on
`record1`, with valid district and village) fails with the conflict
message. -/
theorem nik_globally_unique_witness :
    nikUnique emptyDb ∧
    createHousingRecord dupNikInput 7 100 baseDb = .error "NIK already exists" := by
  constructor
  · exact nik_globally_unique.1 emptyDb emptyDb rfl Relation.ReflTransGen.refl
  · exact (nik_globally_unique.2 dupNikInput 7 100 baseDb (by decide)).2
      (by decide) (by decide)

/-! Claim C4. -/

/-- Update input supplying only `village_id` (village 2 lives in district 2,
while `record1` stays in district 1). -/
def c4input : UpdateHousingRecordInput :=
  { emptyUpdate 1 with village_id := some 2 }

/-- Counterexample to C4 as stated: an update supplying only `village_id`
succeeds after a bare existence check and produces a record whose village
(2, in district 2) does not belong to its district (1) — the claimed
invariant preservation fails. -/
theorem village_district_invariant_counterexample :
    (updateHousingRecord c4input 7 100 baseDb).toOption.map
      (fun p => (p.1.district_id, p.1.village_id,
        villageInDistrict p.2 p.1.village_id p.1.district_id)) =
      some (1, 2, false) := by decide

/-- C4 amended: `createHousingRecord` always establishes the
village-belongs-to-district pairing for the record it inserts, and
`updateHousingRecord` re-validates the pairing only when both `district_id`
and `village_id` are (truthily) supplied; when exactly one is supplied only
that entity's bare existence is checked, so such an update can produce a
record whose village lies in a different district. -/
theorem village_district_validation :
    (∀ (input : CreateHousingRecordInput) (createdBy now : Nat) (db : Db)
      (r : HousingRecord) (db' : Db),
      createHousingRecord input createdBy now db = .ok (r, db') →
      villageInDistrict db' r.village_id r.district_id = true) ∧
    (∀ (input : UpdateHousingRecordInput) (updatedBy now : Nat) (db : Db)
      (r' : HousingRecord) (db' : Db),
      updateHousingRecord input updatedBy now db = .ok (r', db') →
      (truthyId input.district_id = true → truthyId input.village_id = true →
        villageInDistrict db' r'.village_id r'.district_id = true) ∧
      (truthyId input.district_id = true → truthyId input.village_id = false →
        districtExists db' (input.district_id.getD 0) = true) ∧
      (truthyId input.district_id = false → truthyId input.village_id = true →
        villageExists db' (input.village_id.getD 0) = true)) := by
  constructor
  · intro input createdBy now db r db' hok
    unfold createHousingRecord at hok
    by_cases hdt : (!districtExists db input.district_id) = true
    · rw [if_pos hdt] at hok; exact absurd hok (by simp)
    · rw [if_neg hdt] at hok
      by_cases hv : (!villageInDistrict db input.village_id input.district_id) = true
      · rw [if_pos hv] at hok; exact absurd hok (by simp)
      · rw [if_neg hv] at hok
        by_cases hnk : nikExists db input.nik = true
        · rw [if_pos hnk] at hok; exact absurd hok (by simp)
        · rw [if_neg hnk] at hok
          simp only [Except.ok.injEq, Prod.mk.injEq] at hok
          obtain ⟨hr, hdb'⟩ := hok
          subst hdb'
          subst hr
          simp only [Bool.not_eq_true, Bool.not_eq_false] at hv
          simpa [villageInDistrict] using hv
  · intro input updatedBy now db r' db' hok
    unfold updateHousingRecord at hok
    cases hfind : db.housingRecords.find? (fun s => s.id == input.id) with
    | none => rw [hfind] at hok; exact absurd hok (by simp)
    | some r =>
      rw [hfind] at hok
      cases hval : validateUpdateRefs input db with
      | error e => rw [hval] at hok; exact absurd hok (by simp)
      | ok u =>
        rw [hval] at hok
        simp only [Except.ok.injEq, Prod.mk.injEq] at hok
        obtain ⟨hr', hdb'⟩ := hok
        subst hr'
        unfold validateUpdateRefs at hval
        refine ⟨?_, ?_, ?_⟩
        · intro hd hv
          rw [hd, hv, Bool.and_self, if_pos rfl] at hval
          by_cases hvv : villageInDistrict db (input.village_id.getD 0)
              (input.district_id.getD 0) = true
          · have hvil : (applyUpdateValues r input now).village_id =
                input.village_id.getD 0 := by
              cases hvq : input.village_id with
              | none => rw [hvq] at hv; exact absurd hv (by simp [truthyId])
              | some v =>
                simp only [applyUpdateValues, hvq]
                split <;> simp [Option.getD]
            have hdis : (applyUpdateValues r input now).district_id =
                input.district_id.getD 0 := by
              cases hdq : input.district_id with
              | none => rw [hdq] at hd; exact absurd hd (by simp [truthyId])
              | some v =>
                simp only [applyUpdateValues, hdq]
                split <;> simp [Option.getD]
            rw [hvil, hdis]
            have : db'.villages = db.villages := by rw [← hdb']
            simpa [villageInDistrict, this] using hvv
          · rw [if_neg hvv] at hval
            exact absurd hval (by simp)
        · intro hd hv
          rw [hd, hv, Bool.and_false] at hval
          rw [if_neg (by simp)] at hval
          rw [if_pos rfl] at hval
          by_cases hde : districtExists db (input.district_id.getD 0) = true
          · have : db'.districts = db.districts := by rw [← hdb']
            simpa [districtExists, this] using hde
          · rw [if_neg hde] at hval
            exact absurd hval (by simp)
        · intro hd hv
          rw [hd, hv, Bool.false_and] at hval
          rw [if_neg (by simp)] at hval
          rw [if_neg (by simp), if_pos rfl] at hval
          by_cases hve : villageExists db (input.village_id.getD 0) = true
          · have : db'.villages = db.villages := by rw [← hdb']
            simpa [villageExists, this] using hve
          · rw [if_neg hve] at hval
            exact absurd hval (by simp)

/-- Update input supplying both ids, moving `record1` to district 2 /
village 2 (a valid pairing). -/
def c4bothInput : UpdateHousingRecordInput :=
  { emptyUpdate 1 with district_id := some 2, village_id := some 2 }

/-- Witness for C4 (amended): a concrete create and a concrete both-ids
update each end in a record whose village belongs to its district. -/
theorem village_district_validation_witness :
    ((createHousingRecord c2create 7 100 baseDb).toOption.map
      (fun p => villageInDistrict p.2 p.1.village_id p.1.district_id) =
      some true) ∧
    ((updateHousingRecord c4bothInput 7 100 baseDb).toOption.map
      (fun p => villageInDistrict p.2 p.1.village_id p.1.district_id) =
      some true) := by
  constructor
  · obtain ⟨⟨r, db'⟩, h⟩ :
        ∃ p, createHousingRecord c2create 7 100 baseDb = .ok p := ⟨_, rfl⟩
    have h2 := village_district_validation.1 c2create 7 100 baseDb r db' h
    rw [h]
    simp only [Except.toOption, Option.map_some']
    rw [h2]
  · obtain ⟨⟨r', db'⟩, h⟩ :
        ∃ p, updateHousingRecord c4bothInput 7 100 baseDb = .ok p := ⟨_, rfl⟩
    have h2 := (village_district_validation.2 c4bothInput 7 100 baseDb r' db' h).1
      (by decide) (by decide)
    rw [h]
    simp only [Except.toOption, Option.map_some']
    rw [h2]

/-! Claim C5. -/

theorem applyUpdateValues_head (r : HousingRecord)
    (input : UpdateHousingRecordInput) (now : Nat) :
    (applyUpdateValues r input now).head_of_household =
      input.head_of_household.getD r.head_of_household := by
  simp only [applyUpdateValues]; split <;> rfl

theorem applyUpdateValues_status (r : HousingRecord)
    (input : UpdateHousingRecordInput) (now : Nat) :
    (applyUpdateValues r input now).housing_status =
      input.housing_status.getD r.housing_status := by
  simp only [applyUpdateValues]; split <;> rfl

theorem applyUpdateValues_elig (r : HousingRecord)
    (input : UpdateHousingRecordInput) (now : Nat) :
    (applyUpdateValues r input now).eligibility_category =
      input.eligibility_category.getD r.eligibility_category := by
  simp only [applyUpdateValues]; split <;> rfl

theorem applyUpdateValues_district (r : HousingRecord)
    (input : UpdateHousingRecordInput) (now : Nat) :
    (applyUpdateValues r input now).district_id =
      input.district_id.getD r.district_id := by
  simp only [applyUpdateValues]; split <;> rfl

theorem applyUpdateValues_village (r : HousingRecord)
    (input : UpdateHousingRecordInput) (now : Nat) :
    (applyUpdateValues r input now).village_id =
      input.village_id.getD r.village_id := by
  simp only [applyUpdateValues]; split <;> rfl

theorem applyUpdateValues_latitude (r : HousingRecord)
    (input : UpdateHousingRecordInput) (now : Nat) :
    (applyUpdateValues r input now).latitude =
      jsDecimalUpdate r.latitude input.latitude := by
  simp only [applyUpdateValues]; split <;> rfl

theorem applyUpdateValues_longitude (r : HousingRecord)
    (input : UpdateHousingRecordInput) (now : Nat) :
    (applyUpdateValues r input now).longitude =
      jsDecimalUpdate r.longitude input.longitude := by
  simp only [applyUpdateValues]; split <;> rfl

theorem applyUpdateValues_address (r : HousingRecord)
    (input : UpdateHousingRecordInput) (now : Nat) :
    (applyUpdateValues r input now).address = input.address.getD r.address := by
  simp only [applyUpdateValues]; split <;> rfl

theorem applyUpdateValues_phone (r : HousingRecord)
    (input : UpdateHousingRecordInput) (now : Nat) :
    (applyUpdateValues r input now).phone = input.phone.getD r.phone := by
  simp only [applyUpdateValues]; split <;> rfl

theorem applyUpdateValues_family (r : HousingRecord)
    (input : UpdateHousingRecordInput) (now : Nat) :
    (applyUpdateValues r input now).family_members =
      input.family_members.getD r.family_members := by
  simp only [applyUpdateValues]; split <;> rfl

theorem applyUpdateValues_income (r : HousingRecord)
    (input : UpdateHousingRecordInput) (now : Nat) :
    (applyUpdateValues r input now).monthly_income =
      jsDecimalUpdate r.monthly_income input.monthly_income := by
  simp only [applyUpdateValues]; split <;> rfl

theorem applyUpdateValues_score (r : HousingRecord)
    (input : UpdateHousingRecordInput) (now : Nat) :
    (applyUpdateValues r input now).house_condition_score =
      input.house_condition_score.getD r.house_condition_score := by
  simp only [applyUpdateValues]; split <;> rfl

theorem applyUpdateValues_notes (r : HousingRecord)
    (input : UpdateHousingRecordInput) (now : Nat) :
    (applyUpdateValues r input now).notes = input.notes.getD r.notes := by
  simp only [applyUpdateValues]; split <;> rfl

theorem applyUpdateValues_updated_at (r : HousingRecord)
    (input : UpdateHousingRecordInput) (now : Nat) :
    (applyUpdateValues r input now).updated_at = now := by
  simp only [applyUpdateValues]; split <;> rfl

theorem applyUpdateValues_id (r : HousingRecord)
    (input : UpdateHousingRecordInput) (now : Nat) :
    (applyUpdateValues r input now).id = r.id := by
  simp only [applyUpdateValues]; split <;> rfl

theorem applyUpdateValues_created_by (r : HousingRecord)
    (input : UpdateHousingRecordInput) (now : Nat) :
    (applyUpdateValues r input now).created_by = r.created_by := by
  simp only [applyUpdateValues]; split <;> rfl

theorem applyUpdateValues_created_at (r : HousingRecord)
    (input : UpdateHousingRecordInput) (now : Nat) :
    (applyUpdateValues r input now).created_at = r.created_at := by
  simp only [applyUpdateValues]; split <;> rfl

/-- Update input supplying explicit nulls for the three decimal columns. -/
def c5input : UpdateHousingRecordInput :=
  { emptyUpdate 1 with
    latitude := some none, longitude := some none,
    monthly_income := some none }

/-- Counterexample to C5 as stated: an update supplying explicit null for
`latitude`, `longitude` and `monthly_income` succeeds but leaves all three
at their prior values instead of clearing them (the handler turns the null
into `undefined` via `?.toString()` and drizzle drops undefined SET
values). -/
theorem update_null_not_cleared_counterexample :
    (updateHousingRecord c5input 7 100 baseDb).toOption.map
      (fun p => (p.1.latitude, p.1.longitude, p.1.monthly_income)) =
      some (some 5, some 105, some 2500000) := by decide

/-- C5 amended: `updateHousingRecord` applies only the fields present in the
input — absent fields keep their prior value, and an explicit null clears
`phone`, `notes` and `house_condition_score`; but an explicit null on
`latitude`, `longitude` or `monthly_income` leaves the prior value
unchanged (only a supplied number updates those columns); `updated_at` is
set to the current time, and `id`, `nik`, `created_by`, `created_at` are
never changed. -/
theorem update_partial_frame (input : UpdateHousingRecordInput)
    (updatedBy now : Nat) (db : Db) (r' : HousingRecord) (db' : Db)
    (hok : updateHousingRecord input updatedBy now db = .ok (r', db'))
    (r : HousingRecord)
    (hfind : db.housingRecords.find? (fun s => s.id == input.id) = some r) :
    (input.head_of_household = none → r'.head_of_household = r.head_of_household) ∧
    (∀ v, input.head_of_household = some v → r'.head_of_household = v) ∧
    (input.housing_status = none → r'.housing_status = r.housing_status) ∧
    (∀ v, input.housing_status = some v → r'.housing_status = v) ∧
    (input.eligibility_category = none →
      r'.eligibility_category = r.eligibility_category) ∧
    (∀ v, input.eligibility_category = some v → r'.eligibility_category = v) ∧
    (input.district_id = none → r'.district_id = r.district_id) ∧
    (∀ v, input.district_id = some v → r'.district_id = v) ∧
    (input.village_id = none → r'.village_id = r.village_id) ∧
    (∀ v, input.village_id = some v → r'.village_id = v) ∧
    (input.address = none → r'.address = r.address) ∧
    (∀ v, input.address = some v → r'.address = v) ∧
    (input.family_members = none → r'.family_members = r.family_members) ∧
    (∀ v, input.family_members = some v → r'.family_members = v) ∧
    (input.phone = none → r'.phone = r.phone) ∧
    (∀ v, input.phone = some v → r'.phone = v) ∧
    (input.house_condition_score = none →
      r'.house_condition_score = r.house_condition_score) ∧
    (∀ v, input.house_condition_score = some v → r'.house_condition_score = v) ∧
    (input.notes = none → r'.notes = r.notes) ∧
    (∀ v, input.notes = some v → r'.notes = v) ∧
    (input.latitude = none → r'.latitude = r.latitude) ∧
    (input.latitude = some none → r'.latitude = r.latitude) ∧
    (∀ v, input.latitude = some (some v) → r'.latitude = some v) ∧
    (input.longitude = none → r'.longitude = r.longitude) ∧
    (input.longitude = some none → r'.longitude = r.longitude) ∧
    (∀ v, input.longitude = some (some v) → r'.longitude = some v) ∧
    (input.monthly_income = none → r'.monthly_income = r.monthly_income) ∧
    (input.monthly_income = some none → r'.monthly_income = r.monthly_income) ∧
    (∀ v, input.monthly_income = some (some v) → r'.monthly_income = some v) ∧
    r'.updated_at = now ∧
    r'.id = r.id ∧ r'.nik = r.nik ∧
    r'.created_by = r.created_by ∧ r'.created_at = r.created_at := by
  unfold updateHousingRecord at hok
  rw [hfind] at hok
  cases hval : validateUpdateRefs input db with
  | error e => rw [hval] at hok; exact absurd hok (by simp)
  | ok u =>
    rw [hval] at hok
    simp only [Except.ok.injEq, Prod.mk.injEq] at hok
    obtain ⟨hr', hdb'⟩ := hok
    subst hr'
    refine ⟨?_, ?_, ?_, ?_, ?_, ?_, ?_, ?_, ?_, ?_, ?_, ?_, ?_, ?_, ?_, ?_,
      ?_, ?_, ?_, ?_, ?_, ?_, ?_, ?_, ?_, ?_, ?_, ?_, ?_, ?_, ?_, ?_, ?_, ?_⟩ <;>
    intros <;>
    simp_all [applyUpdateValues_head, applyUpdateValues_status,
      applyUpdateValues_elig, applyUpdateValues_district,
      applyUpdateValues_village, applyUpdateValues_latitude,
      applyUpdateValues_longitude, applyUpdateValues_address,
      applyUpdateValues_phone, applyUpdateValues_family,
      applyUpdateValues_income, applyUpdateValues_score,
      applyUpdateValues_notes, applyUpdateValues_updated_at,
      applyUpdateValues_id, applyUpdateValues_nik,
      applyUpdateValues_created_by, applyUpdateValues_created_at,
      jsDecimalUpdate]

/-- Update input exercising the present / explicit-null / absent cases. -/
def c5winput : UpdateHousingRecordInput :=
  { emptyUpdate 1 with
    phone := some none, house_condition_score := some none,
    latitude := some (some 7) }

/-- Witness for C5 (amended): explicit null clears `phone` and
`house_condition_score`, a supplied `latitude` number is stored, absent
`notes` stays, and `updated_at` becomes the current time. -/
theorem update_partial_frame_witness :
    (updateHousingRecord c5winput 7 100 baseDb).toOption.map
      (fun p => (p.1.phone, p.1.house_condition_score, p.1.latitude,
        p.1.notes, p.1.updated_at)) =
      some (none, none, some 7, some "old notes", 100) := by
  obtain ⟨⟨r', db'⟩, h⟩ :
      ∃ p, updateHousingRecord c5winput 7 100 baseDb = .ok p := ⟨_, rfl⟩
  have h2 := update_partial_frame c5winput 7 100 baseDb r' db' h record1 (by decide)
  rw [h]
  simp only [Except.toOption, Option.map_some']
  obtain ⟨_, _, _, _, _, _, _, _, _, _, _, _, _, _, hphoneN, hphoneS, hscoreN,
    hscoreS, hnotesN, hnotesS, hlatN, hlatNull, hlatS, _, _, _, _, _, _, hupd,
    _, _, _, _⟩ := h2
  rw [hphoneS none (by rfl), hscoreS none (by rfl), hlatS 7 (by rfl),
    hnotesN (by rfl), hupd]
  rfl

/-! Claim C6. -/

/-- Verify input supplying the empty string as notes. -/
def c6input : VerifyHousingRecordInput :=
  { id := 1, verification_status := .VERIFIED, notes := some (some "") }

/-- Counterexample to C6 as stated: verifying `record1` with notes provided
as the empty string keeps the prior notes ("old notes") instead of storing
the provided value — `input.notes || existingRecord[0].notes` treats the
empty string as falsy. -/
theorem verify_empty_notes_counterexample :
    (verifyHousingRecord c6input 3 100 baseDb).toOption.map
      (fun p => p.1.notes) = some (some "old notes") := by decide

/-- C6 amended: for every existing record, `verifyHousingRecord` sets the
requested `verification_status`, `verified_by` to the verifier and
`verified_at` to the current time (hence, under a monotone clock where the
prior `updated_at` is not in the future, `verified_at` is at least the
prior `updated_at`); notes are overwritten only when provided as a
non-empty string — an absent, null or empty-string notes input keeps the
prior notes; re-verifying an already VERIFIED or REJECTED record is never
rejected (success depends only on the record's existence). -/
theorem verify_sets_verification_data :
    (∀ (input : VerifyHousingRecordInput) (verifiedBy now : Nat) (db : Db)
      (r' : HousingRecord) (db' : Db),
      verifyHousingRecord input verifiedBy now db = .ok (r', db') →
      ∀ r, db.housingRecords.find? (fun s => s.id == input.id) = some r →
        r'.verification_status = input.verification_status ∧
        r'.verified_by = some verifiedBy ∧
        r'.verified_at = some now ∧
        r'.updated_at = now ∧
        (r.updated_at ≤ now → ∀ t, r'.verified_at = some t → r.updated_at ≤ t) ∧
        (∀ s, input.notes = some (some s) → s ≠ "" → r'.notes = some s) ∧
        (input.notes = none → r'.notes = r.notes) ∧
        (input.notes = some none → r'.notes = r.notes) ∧
        (input.notes = some (some "") → r'.notes = r.notes)) ∧
    (∀ (input : VerifyHousingRecordInput) (verifiedBy now : Nat) (db : Db),
      (db.housingRecords.find? (fun s => s.id == input.id)).isSome = true →
      (verifyHousingRecord input verifiedBy now db).isOk = true) := by
  constructor
  · intro input verifiedBy now db r' db' hok r hfind
    unfold verifyHousingRecord at hok
    rw [hfind] at hok
    simp only [Except.ok.injEq, Prod.mk.injEq] at hok
    obtain ⟨hr', hdb'⟩ := hok
    subst hr'
    refine ⟨rfl, rfl, rfl, rfl, ?_, ?_, ?_, ?_, ?_⟩
    · intro hle t ht
      simp only [applyVerify] at ht
      injection ht with ht
      subst ht
      exact hle
    · intro s hs hne
      simp [applyVerify, verifyNotes, hs, hne]
    · intro hs
      simp [applyVerify, verifyNotes, hs]
    · intro hs
      simp [applyVerify, verifyNotes, hs]
    · intro hs
      simp [applyVerify, verifyNotes, hs]
  · intro input verifiedBy now db hfind
    unfold verifyHousingRecord
    cases h : db.housingRecords.find? (fun s => s.id == input.id) with
    | none => rw [h] at hfind; exact absurd hfind (by simp)
    | some r => rfl

/-- Verify input with real notes, used on the already-VERIFIED `record1`. -/
def c6winput : VerifyHousingRecordInput :=
  { id := 1, verification_status := .REJECTED, notes := some (some "resurvey") }

/-- Witness for C6 (amended): re-verifying the already VERIFIED `record1`
(prior `updated_at` 50, current time 100) succeeds, stores the provided
non-empty notes, and sets `verified_at` to 100 which is at least the prior
`updated_at`. -/
theorem verify_sets_verification_data_witness :
    ((verifyHousingRecord c6winput 3 100 baseDb).toOption.map
      (fun p => (p.1.verification_status, p.1.verified_by, p.1.verified_at,
        p.1.notes)) =
      some (VerificationStatus.REJECTED, some 3, some 100, some "resurvey")) ∧
    record1.updated_at ≤ 100 ∧
    (verifyHousingRecord c6winput 3 100 baseDb).isOk = true := by
  obtain ⟨⟨r', db'⟩, h⟩ :
      ∃ p, verifyHousingRecord c6winput 3 100 baseDb = .ok p := ⟨_, rfl⟩
  have h2 := verify_sets_verification_data.1 c6winput 3 100 baseDb r' db' h
    record1 (by decide)
  have h3 := verify_sets_verification_data.2 c6winput 3 100 baseDb (by decide)
  refine ⟨?_, by decide, h3⟩
  rw [h]
  simp only [Except.toOption, Option.map_some']
  rw [h2.1, h2.2.1, h2.2.2.1, h2.2.2.2.2.2.1 "resurvey" (by rfl) (by decide)]
  rfl

/-! Claim C7. -/

/-- C7: after a successful `createBacklog`, a second create with the
identical (district, village, type, year, month) five-tuple fails with the
descriptive "already exists" conflict produced by the explicit
pre-insertion check (the error path inserts nothing — an `Except.error`
carries no new store); a create differing only in `backlog_type` succeeds,
provided that tuple was not already taken before the first create. -/
theorem backlog_duplicate_tuple_rejected
    (input : CreateBacklogInput) (createdBy now : Nat) (db : Db)
    (b : Backlog) (db' : Db)
    (hok : createBacklog input createdBy now db = .ok (b, db')) :
    (∀ createdBy2 now2,
      createBacklog input createdBy2 now2 db' =
        .error "A backlog entry already exists for this district, village, type, year, and month combination") ∧
    (∀ t, t ≠ input.backlog_type →
      backlogTupleExists db { input with backlog_type := t } = false →
      ∀ createdBy2 now2,
        (createBacklog { input with backlog_type := t } createdBy2 now2 db').isOk = true) := by
  unfold createBacklog at hok
  by_cases hdt : (!districtExists db input.district_id) = true
  · rw [if_pos hdt] at hok; exact absurd hok (by simp)
  · rw [if_neg hdt] at hok
    by_cases hv : (!villageInDistrict db input.village_id input.district_id) = true
    · rw [if_pos hv] at hok; exact absurd hok (by simp)
    · rw [if_neg hv] at hok
      by_cases htup : backlogTupleExists db input = true
      · rw [if_pos htup] at hok; exact absurd hok (by simp)
      · rw [if_neg htup] at hok
        simp only [Except.ok.injEq, Prod.mk.injEq] at hok
        obtain ⟨hb, hdb'⟩ := hok
        have hdistricts : db'.districts = db.districts := by rw [← hdb']
        have hvillages : db'.villages = db.villages := by rw [← hdb']
        have hbacklogs : db'.backlogs = db.backlogs ++
            [{ id := db.nextBacklogId, district_id := input.district_id,
               village_id := input.village_id,
               backlog_type := input.backlog_type,
               family_count := input.family_count, year := input.year,
               month := input.month, created_by := createdBy,
               created_at := now, updated_at := now }] := by rw [← hdb']
        constructor
        · intro createdBy2 now2
          unfold createBacklog
          rw [if_neg (by simpa [districtExists, hdistricts] using hdt)]
          rw [if_neg (by simpa [villageInDistrict, hvillages] using hv)]
          rw [if_pos ?_]
          simp only [backlogTupleExists, hbacklogs, List.any_append,
            List.any_cons, List.any_nil, Bool.or_eq_true]
          right
          simp
        · intro t ht htup2 createdBy2 now2
          unfold createBacklog
          rw [if_neg (by simpa [districtExists, hdistricts] using hdt)]
          rw [if_neg (by simpa [villageInDistrict, hvillages] using hv)]
          rw [if_neg ?_]
          · rfl
          · simp only [backlogTupleExists, hbacklogs, List.any_append,
              List.any_cons, List.any_nil, Bool.or_eq_true]
            intro hcase
            rcases hcase with hcase | hcase
            · rw [show (List.any db.backlogs fun bb =>
                  bb.district_id == input.district_id &&
                  bb.village_id == input.village_id && bb.backlog_type == t &&
                  bb.year == input.year && bb.month == input.month) =
                  backlogTupleExists db { input with backlog_type := t }
                  from rfl] at hcase
              rw [htup2] at hcase
              exact absurd hcase (by simp)
            · simp at hcase
              exact ht hcase.symm

/-- Concrete backlog create input for district 1 / village 1. -/
def cb1 : CreateBacklogInput :=
  { district_id := 1, village_id := 1, backlog_type := .NO_HOUSE,
    family_count := 12, year := 2024, month := 6 }

/-- Witness for C7: creating `cb1` on `baseDb` succeeds; the identical
second create fails with the conflict message, and the create differing
only in `backlog_type` succeeds. -/
theorem backlog_duplicate_tuple_rejected_witness :
    (createBacklog cb1 7 100 baseDb).toOption.map
      (fun p => (createBacklog cb1 8 200 p.2,
        (createBacklog { cb1 with backlog_type := .UNINHABITABLE_HOUSE }
          8 200 p.2).isOk)) =
      some (.error "A backlog entry already exists for this district, village, type, year, and month combination",
        true) := by
  obtain ⟨⟨b, db'⟩, h⟩ :
      ∃ p, createBacklog cb1 7 100 baseDb = .ok p := ⟨_, rfl⟩
  have h2 := backlog_duplicate_tuple_rejected cb1 7 100 baseDb b db' h
  rw [h]
  simp only [Except.toOption, Option.map_some']
  rw [h2.1 8 200,
    h2.2 .UNINHABITABLE_HOUSE (by decide) (by decide) 8 200]

/-! Claim C8. -/

/-- Spec wording: (y1, m1) is at most (y2, m2) in lexicographic order. -/
def lexLE (y1 m1 y2 m2 : Int) : Bool :=
  y1 < y2 || (y1 == y2 && m1 ≤ m2)

/-- Spec wording: the entry's (year, month) lies between the start and end
pairs in lexicographic order. -/
def inLexRange (sy sm ey em : Int) (b : Backlog) : Bool :=
  lexLE sy sm b.year b.month && lexLE b.year b.month ey em

/-- A backlog entry at (2025, 5). -/
def blBad : Backlog :=
  { id := 1, district_id := 1, village_id := 1, backlog_type := .NO_HOUSE,
    family_count := 3, year := 2025, month := 5, created_by := 1,
    created_at := 0, updated_at := 0 }

/-- Counterexample to C8 as stated: on the inverted range
(2025, 1) … (2024, 1) the lexicographic interval is empty, but the
different-years branch still returns the (2025, 5) entry through its
start-year disjunct. -/
theorem date_range_inverted_counterexample :
    getBacklogsByDateRange 2025 1 2024 1 [blBad] = [blBad] ∧
    inLexRange 2025 1 2024 1 blBad = false := by decide

/-- C8 amended: whenever `startYear ≤ endYear`, `getBacklogsByDateRange`
returns exactly the entries whose (year, month) lies lexicographically
between (startYear, startMonth) and (endYear, endMonth): for equal years it
filters by the month bounds inside that year, otherwise the union of the
start-year tail, the end-year head and the fully enclosed years; the result
is empty when no entry matches. (For an inverted range with
`startYear > endYear` the handler's different-years branch can still return
entries, so the bound is required.) -/
theorem date_range_lexicographic (startYear startMonth endYear endMonth : Int)
    (backlogs : List Backlog) (h : startYear ≤ endYear) :
    getBacklogsByDateRange startYear startMonth endYear endMonth backlogs =
      backlogs.filter (inLexRange startYear startMonth endYear endMonth) := by
  unfold getBacklogsByDateRange
  by_cases heq : (startYear == endYear) = true
  · rw [if_pos heq]
    refine List.filter_congr (fun b _ => ?_)
    have hy : startYear = endYear := by simpa using heq
    subst hy
    apply Bool.eq_iff_iff.mpr
    simp only [inLexRange, lexLE, Bool.and_eq_true, Bool.or_eq_true,
      beq_iff_eq, decide_eq_true_eq]
    omega
  · rw [if_neg heq]
    refine List.filter_congr (fun b _ => ?_)
    have hy : startYear ≠ endYear := by simpa using heq
    apply Bool.eq_iff_iff.mpr
    simp only [inLexRange, lexLE, Bool.and_eq_true, Bool.or_eq_true,
      beq_iff_eq, decide_eq_true_eq]
    omega

def blNov2023 : Backlog :=
  { blBad with id := 2, year := 2023, month := 11 }

def blFeb2024 : Backlog :=
  { blBad with id := 3, year := 2024, month := 2 }

def blOct2024 : Backlog :=
  { blBad with id := 4, year := 2024, month := 10 }

/-- Witness for C8 (amended), on the spec's own example: the range
(2023, 10) … (2024, 5) over entries at (2023, 11), (2024, 2), (2024, 10)
selects exactly the first two. -/
theorem date_range_lexicographic_witness :
    (2023 : Int) ≤ 2024 ∧
    getBacklogsByDateRange 2023 10 2024 5 [blNov2023, blFeb2024, blOct2024] =
      [blNov2023, blFeb2024, blOct2024].filter (inLexRange 2023 10 2024 5) ∧
    getBacklogsByDateRange 2023 10 2024 5 [blNov2023, blFeb2024, blOct2024] =
      [blNov2023, blFeb2024] := by
  refine ⟨by decide, ?_, by decide⟩
  exact date_range_lexicographic 2023 10 2024 5 _ (by decide)

/-! Claim C9. -/

/-- Spec wording: the audit entries whose `created_at` lies in the window
starting at `cutoff`. -/
def entriesInWindow (logs : List AuditLog) (cutoff : Int) : List AuditLog :=
  logs.filter (fun l => cutoff ≤ l.created_at)

/-- Spec wording: the number of entries with the given action in the
window. -/
def actionCountInWindow (a : AuditAction) (logs : List AuditLog)
    (cutoff : Int) : Nat :=
  ((entriesInWindow logs cutoff).filter (fun l => l.action == a)).length

theorem filter_and_comm (logs : List AuditLog) (a : AuditAction)
    (cutoff : Int) :
    (logs.filter (fun l => l.action == a && cutoff ≤ l.created_at)).length =
      actionCountInWindow a logs cutoff := by
  unfold actionCountInWindow entriesInWindow
  rw [List.filter_filter]

/-- The double computation `Math.floor(count * 0.1)` on a natural count is
exactly the rational floor of `0.1 × count`, which is `count / 10`. -/
theorem floor_tenth (n : Nat) : Nat.floor ((0.1 : ℚ) * n) = n / 10 := by
  have h : (0.1 : ℚ) * n = (n : ℚ) / ((10 : ℕ) : ℚ) := by
    push_cast
    ring
  rw [h, Nat.floor_div_nat, Nat.floor_natCast]

/-- C9: `getSecurityReport` returns `failed_logins` = LOGIN entries in the
7-day window, `data_exports` = EXPORT entries in that window,
`recent_changes` = all entries in that window, and
`suspicious_activities` = floor(0.1 × all entries in the 1-day window),
which is 0 when that window is empty. -/
theorem security_report_counts (logs : List AuditLog) (weekAgo dayAgo : Int) :
    (getSecurityReport logs weekAgo dayAgo).failed_logins =
      actionCountInWindow .LOGIN logs weekAgo ∧
    (getSecurityReport logs weekAgo dayAgo).data_exports =
      actionCountInWindow .EXPORT logs weekAgo ∧
    (getSecurityReport logs weekAgo dayAgo).recent_changes =
      (entriesInWindow logs weekAgo).length ∧
    (getSecurityReport logs weekAgo dayAgo).suspicious_activities =
      Nat.floor ((0.1 : ℚ) * (entriesInWindow logs dayAgo).length) ∧
    (entriesInWindow logs dayAgo = [] →
      (getSecurityReport logs weekAgo dayAgo).suspicious_activities = 0) := by
  refine ⟨?_, ?_, ?_, ?_, ?_⟩
  · exact filter_and_comm logs .LOGIN weekAgo
  · exact filter_and_comm logs .EXPORT weekAgo
  · rfl
  · rw [floor_tenth]
    rfl
  · intro hempty
    show (entriesInWindow logs dayAgo).length / 10 = 0
    rw [hempty]
    rfl

def c9log1 : AuditLog :=
  { seedLog with id := 2, action := .LOGIN, created_at := 10 }

def c9log2 : AuditLog :=
  { seedLog with id := 3, action := .EXPORT, created_at := 90 }

def c9log3 : AuditLog :=
  { seedLog with id := 4, action := .CREATE, created_at := 95 }

/-- Witness for C9 on a concrete three-entry log with `weekAgo = 5` and
`dayAgo = 100` (an empty 1-day window): one LOGIN, one EXPORT, three recent
entries, zero suspicious activities. -/
theorem security_report_counts_witness :
    getSecurityReport [c9log1, c9log2, c9log3] 5 100 =
      { suspicious_activities := 0, failed_logins := 1, data_exports := 1,
        recent_changes := 3 } ∧
    (getSecurityReport [c9log1, c9log2, c9log3] 5 100).suspicious_activities = 0 := by
  refine ⟨by decide, ?_⟩
  exact (security_report_counts [c9log1, c9log2, c9log3] 5 100).2.2.2.2
    (by decide)

/-! Claim C10. -/

/-- The declared 0-100 range of `house_condition_score`
(`z.number().min(0).max(100)`, schema.ts). -/
def scoreInDeclaredRange (s : Int) : Bool :=
  0 ≤ s && s ≤ 100

/-- The 16-digit NIK constraint of `createHousingRecordInputSchema`. -/
def validNik (s : String) : Bool :=
  s.length == 16 && s.toList.all Char.isDigit

/-- Validity of a create input per `createHousingRecordInputSchema`
(zod): non-empty head of household and address, 16-digit NIK, positive
integer family size, score within 0-100 when supplied. -/
def validCreateInput (i : CreateHousingRecordInput) : Bool :=
  1 ≤ i.head_of_household.length && validNik i.nik && 1 ≤ i.address.length &&
  1 ≤ i.family_members &&
  (match i.house_condition_score with
   | some (some s) => scoreInDeclaredRange s
   | _ => true)

/-- C10: for every schema-valid create input, `createHousingRecord` stores
null instead of a supplied falsy optional value: a `house_condition_score`
of 0 (which lies inside the declared 0-100 range), an empty-string `phone`,
or an empty-string `notes` all end up as null on the created record. -/
theorem create_coerces_falsy_optionals_to_null
    (input : CreateHousingRecordInput) (createdBy now : Nat) (db : Db)
    (r : HousingRecord) (db' : Db)
    (hok : createHousingRecord input createdBy now db = .ok (r, db'))
    (hvalid : validCreateInput input = true) :
    scoreInDeclaredRange 0 = true ∧
    (input.house_condition_score = some (some 0) →
      r.house_condition_score = none) ∧
    (input.phone = some (some "") → r.phone = none) ∧
    (input.notes = some (some "") → r.notes = none) := by
  unfold createHousingRecord at hok
  by_cases hdt : (!districtExists db input.district_id) = true
  · rw [if_pos hdt] at hok; exact absurd hok (by simp)
  · rw [if_neg hdt] at hok
    by_cases hv : (!villageInDistrict db input.village_id input.district_id) = true
    · rw [if_pos hv] at hok; exact absurd hok (by simp)
    · rw [if_neg hv] at hok
      by_cases hnk : nikExists db input.nik = true
      · rw [if_pos hnk] at hok; exact absurd hok (by simp)
      · rw [if_neg hnk] at hok
        simp only [Except.ok.injEq, Prod.mk.injEq] at hok
        obtain ⟨hr, hdb'⟩ := hok
        subst hr
        refine ⟨by decide, ?_, ?_, ?_⟩
        · intro hs
          simp [jsOrNullScore, hs]
        · intro hs
          simp [jsOrNullString, hs]
        · intro hs
          simp [jsOrNullString, hs]

/-- A schema-valid create input carrying the three falsy optional values. -/
def c10input : CreateHousingRecordInput :=
  { c2create with
    nik := "9876543210987654",
    house_condition_score := some (some 0), phone := some (some ""),
    notes := some (some "") }

/-- Witness for C10: creating `c10input` on `baseDb` succeeds and stores
null for `house_condition_score`, `phone` and `notes`. -/
theorem create_coerces_falsy_optionals_witness :
    validCreateInput c10input = true ∧
    (createHousingRecord c10input 7 100 baseDb).toOption.map
      (fun p => (p.1.house_condition_score, p.1.phone, p.1.notes)) =
      some (none, none, none) := by
  refine ⟨by decide, ?_⟩
  obtain ⟨⟨r, db'⟩, h⟩ :
      ∃ p, createHousingRecord c10input 7 100 baseDb = .ok p := ⟨_, rfl⟩
  have h2 := create_coerces_falsy_optionals_to_null c10input 7 100 baseDb r db'
    h (by decide)
  rw [h]
  simp only [Except.toOption, Option.map_some']
  rw [h2.2.1 (by rfl), h2.2.2.1 (by rfl), h2.2.2.2 (by rfl)]

end ELacak
